import Mathlib

/-
  Verification of the claude-army supervisor daemon against its
  natural-language specification.

  Shallow embedding of the Python sources:
    - permission_server.py  (PermissionManager: request_permission, respond,
      register_telegram_msg, get_pending)
    - permission_hook.py    (pre-tool-use hook: request_permission, main)
    - claude_process.py     (ClaudeProcess.start and its attribute set)
    - process_manager.py    (ProcessManager.spawn_process, send_to_process)
    - daemon_core.py        (Daemon._on_system_init, _spawn_operator,
      _drain_init_turn, _process_permission_request, _route_message_to_claude)
    - session_worker.py     (spawn_worktree_task_async)

  The registry (registry.py is not under src/) is modelled from the spec.
  External effects (subprocess spawning, HTTP, Telegram, git) are modelled
  as explicit outcome parameters; blocking waits are modelled by the value
  the wait produces (a response, or a timeout).
-/

/-- Python values as they occur in registry task rows: the code stores
strings, booleans, integers and None into the same dict slots. -/
inductive PyVal where
  | str (s : String)
  | bool (b : Bool)
  | int (n : Int)
  | nil
  deriving DecidableEq

/-- A Python dict with string keys, as an association list. -/
abbrev Dict := List (String × PyVal)

/-- Dict lookup (Python `d.get(k)`). -/
def dictGet (d : Dict) (k : String) : Option PyVal :=
  match d with
  | [] => none
  | (k', v) :: rest => if k' = k then some v else dictGet rest k

/-- Dict update (Python `d[k] = v`): replaces an existing binding or appends. -/
def dictSet (d : Dict) (k : String) (v : PyVal) : Dict :=
  match d with
  | [] => [(k, v)]
  | (k', v') :: rest => if k' = k then (k, v) :: rest else (k', v') :: dictSet rest k v

/-- The registry's task table: task name to task row. -/
abbrev Registry := List (String × Dict)

/-- Modelled from the spec: `Registry.get_task(name)` (registry.py is not
under src/) — keyed lookup in the durable name-to-state mapping. -/
def get_task (reg : Registry) (name : String) : Option Dict :=
  match reg with
  | [] => none
  | (n, row) :: rest => if n = name then some row else get_task rest name

/-- Modelled from the spec: `Registry.add_task(name, data)` (registry.py is
not under src/) — inserts or replaces the row for `name`. -/
def add_task (reg : Registry) (name : String) (row : Dict) : Registry :=
  match reg with
  | [] => [(name, row)]
  | (n, r) :: rest =>
      if n = name then (name, row) :: rest else (n, r) :: add_task rest name row

/-- Modelled from the spec: `Registry.remove_task(name)` (registry.py is not
under src/) — deletes the row for `name`. -/
def remove_task (reg : Registry) (name : String) : Registry :=
  match reg with
  | [] => []
  | (n, r) :: rest => if n = name then rest else (n, r) :: remove_task rest name

/-- Modelled from the spec: `update_task_session_tracking(name, session_id=...)`
(registry.py is not under src/) — a partial update that no-ops on unknown
name; here only the `session_id` field, which is all the daemon's init
handler passes. -/
def update_task_session_tracking (reg : Registry) (name : String) (sid : String) : Registry :=
  match get_task reg name with
  | none => reg
  | some row => add_task reg name (dictSet row "session_id" (.str sid))

/-- Modelled from the spec: `get_topic_for_session(agent_session_id)`
(registry.py is not under src/) — linear scan for the task whose stored
session id matches, returning its chat-topic id. -/
def get_topic_for_session (reg : Registry) (sid : String) : Option Int :=
  match reg with
  | [] => none
  | (_, row) :: rest =>
      if dictGet row "session_id" = some (.str sid) then
        match dictGet row "topic_id" with
        | some (.int t) => some t
        | _ => none
      else get_topic_for_session rest sid

/-! ## Permission broker (permission_server.py) -/

/-- A permission decision, `Literal["allow", "deny"]`. -/
inductive Decision where
  | allow
  | deny
  deriving DecidableEq

/-- `PendingPermission` from permission_server.py: one tool invocation
waiting on a human decision.  `response_queue` holds the items `respond`
has put and the waiter has not yet consumed; `telegram_msg_id` is set once
the chat prompt is posted. -/
structure PendingPermission where
  tool_name : String
  tool_use_id : String
  session_id : String
  cwd : String
  response_queue : List (Decision × String) := []
  telegram_msg_id : Option Int := none
  deriving DecidableEq

/-- The `PermissionManager`'s mutable state: the pending table, the reverse
chat-message-id mapping, and the notification queue consumed by the daemon. -/
structure PMState where
  pending : List (String × PendingPermission) := []
  msg_to_tool : List (Int × String) := []
  notifications : List (String × String) := []
  deriving DecidableEq

/-- Lookup in the pending table (`self.pending.get(tool_use_id)`). -/
def pendingGet (l : List (String × PendingPermission)) (k : String) : Option PendingPermission :=
  match l with
  | [] => none
  | (k', v) :: rest => if k' = k then some v else pendingGet rest k

/-- Insert/replace in the pending table (`self.pending[tool_use_id] = p`). -/
def pendingSet (l : List (String × PendingPermission)) (k : String) (v : PendingPermission) :
    List (String × PendingPermission) :=
  match l with
  | [] => [(k, v)]
  | (k', v') :: rest =>
      if k' = k then (k, v) :: rest else (k', v') :: pendingSet rest k v

/-- Remove from the pending table (`self.pending.pop(tool_use_id, None)`). -/
def pendingPop (l : List (String × PendingPermission)) (k : String) :
    List (String × PendingPermission) :=
  match l with
  | [] => []
  | (k', v) :: rest => if k' = k then pendingPop rest k else (k', v) :: pendingPop rest k

/-- The auto-allow set from `PermissionManager.__init__`. -/
def autoAllow : List String := ["Read", "Grep", "Glob", "TodoRead", "TodoWrite"]

/-- `PermissionManager.get_pending(tool_use_id)`. -/
def get_pending (st : PMState) (tool_use_id : String) : Option PendingPermission :=
  pendingGet st.pending tool_use_id

/-- The insertion phase of `request_permission`: create the
PendingPermission, store it under the lock, and signal the async loop
(push `(tool_use_id, session_id)` onto the notification queue). -/
def request_insert (st : PMState) (tool_name tool_use_id session_id cwd : String) : PMState :=
  let p : PendingPermission :=
    { tool_name := tool_name, tool_use_id := tool_use_id,
      session_id := session_id, cwd := cwd }
  { st with
    pending := pendingSet st.pending tool_use_id p,
    notifications := st.notifications ++ [(tool_use_id, session_id)] }

/-- The `finally` block of `request_permission`: pop the pending entry and
delete every reverse mapping pointing at this `tool_use_id`, under the lock. -/
def request_cleanup (st : PMState) (tool_use_id : String) : PMState :=
  { st with
    pending := pendingPop st.pending tool_use_id,
    msg_to_tool := st.msg_to_tool.filter (fun mt => mt.2 ≠ tool_use_id) }

/-- `PermissionManager.request_permission`.  The blocking
`response_queue.get(timeout=300)` is modelled by `waited`: `some (d, r)`
when a response was delivered within the 300 s window, `none` when the
wait timed out (`queue.Empty`). -/
def request_permission (st : PMState) (tool_name tool_use_id session_id cwd : String)
    (waited : Option (Decision × String)) : (Decision × String) × PMState :=
  if tool_name ∈ autoAllow then
    ((.allow, "Auto-allowed: " ++ tool_name), st)
  else
    (match waited with
     | some dr => dr
     | none => (.deny, "Permission request timed out"),
     request_cleanup (request_insert st tool_name tool_use_id session_id cwd) tool_use_id)

/-- `PermissionManager.respond(tool_use_id, decision, reason)`: look up the
pending entry under the lock; if absent return false; otherwise put the
decision on its response queue and return true.  Note that `respond` never
removes the entry — only the waiter's cleanup does. -/
def respond (st : PMState) (tool_use_id : String) (decision : Decision) (reason : String) :
    Bool × PMState :=
  match pendingGet st.pending tool_use_id with
  | none => (false, st)
  | some p =>
      let p' := { p with response_queue := p.response_queue ++ [(decision, reason)] }
      (true, { st with pending := pendingSet st.pending tool_use_id p' })

/-- Insert/replace in the reverse mapping (`self._msg_to_tool[msg_id] = tid`). -/
def msgMapSet (l : List (Int × String)) (k : Int) (v : String) : List (Int × String) :=
  match l with
  | [] => [(k, v)]
  | (k', v') :: rest =>
      if k' = k then (k, v) :: rest else (k', v') :: msgMapSet rest k v

/-- `PermissionManager.register_telegram_msg(tool_use_id, msg_id)`: record
the chat message id on the pending entry and the reverse mapping. -/
def register_telegram_msg (st : PMState) (tool_use_id : String) (msg_id : Int) : PMState :=
  match pendingGet st.pending tool_use_id with
  | none => st
  | some p =>
      { st with
        pending := pendingSet st.pending tool_use_id { p with telegram_msg_id := some msg_id },
        msg_to_tool := msgMapSet st.msg_to_tool msg_id tool_use_id }

/-! ## Pre-tool-use hook (permission_hook.py) -/

/-- The outcome of the hook's HTTP POST to the broker, as distinguished by
the `except` clauses of `permission_hook.request_permission`. -/
inductive HookHttpOut where
  | success (decision : Option String) (reason : String)
  | connectionError
  | timeout
  | httpError (msg : String)

/-- `permission_hook.request_permission`: translate the HTTP outcome into a
decision or a raised `RuntimeError` (modelled as `.error`). -/
def hook_request_permission (out : HookHttpOut) : Except String (Decision × String) :=
  match out with
  | .success decision reason =>
      match decision with
      | some "allow" => .ok (.allow, reason)
      | some "deny" => .ok (.deny, reason)
      | _ => .error "Invalid decision"
  | .connectionError => .error "Permission server not running"
  | .timeout => .ok (.deny, "Permission request timed out")
  | .httpError msg => .error ("Permission server error: " ++ msg)

/-- The fields the hook extracts from its stdin JSON; `none` models a
missing key and the empty string is falsy, exactly as Python's
`all([tool_name, tool_use_id, session_id])` treats them. -/
structure HookIn where
  tool_name : Option String := none
  tool_use_id : Option String := none
  session_id : Option String := none

/-- Python truthiness of one extracted field. -/
def fieldTruthy (f : Option String) : Bool :=
  match f with
  | none => false
  | some s => s ≠ ""

/-- The `all([tool_name, tool_use_id, session_id])` check in `main`. -/
def requiredFieldsTruthy (inp : HookIn) : Bool :=
  fieldTruthy inp.tool_name && fieldTruthy inp.tool_use_id && fieldTruthy inp.session_id

/-- What the hook writes to stdout: a passthrough object (no decision), or
exactly one decision object. -/
inductive HookOut where
  | passthrough
  | decided (decision : Decision) (reason : String)
  deriving DecidableEq

/-- Result of one hook run: the single JSON object written to stdout and
the exit code. -/
structure HookRun where
  out : HookOut
  exit_code : Nat
  deriving DecidableEq

/-- `permission_hook.main`.  `managed` is the `CLAUDE_ARMY_MANAGED=1`
check; `stdin` is `none` when the stdin JSON fails to parse; `http` is the
outcome of the POST (only consulted when the hook gets that far). -/
def hook_main (managed : Bool) (stdin : Option HookIn) (http : HookHttpOut) : HookRun :=
  if !managed then
    { out := .passthrough, exit_code := 0 }
  else
    match stdin with
    | none => { out := .decided .allow "Invalid hook input", exit_code := 0 }
    | some inp =>
        if !requiredFieldsTruthy inp then
          { out := .decided .deny "Missing required fields", exit_code := 0 }
        else
          match hook_request_permission http with
          | .ok (d, r) => { out := .decided d r, exit_code := 0 }
          | .error e => { out := .decided .allow e, exit_code := 0 }

/-- Whether a hook run emitted a decision object (rather than passthrough). -/
def HookRun.isDecided (r : HookRun) : Bool :=
  match r.out with
  | .passthrough => false
  | .decided _ _ => true

/-- The decision of a hook run, when it emitted one. -/
def HookRun.decision (r : HookRun) : Option Decision :=
  match r.out with
  | .passthrough => none
  | .decided d _ => some d

/-! ## Agent process (claude_process.py) -/

/-- Outcome of `asyncio.create_subprocess_exec` for the agent binary:
either a live child with a pid, or a raised exception. -/
inductive SpawnOut where
  | ok (pid : Nat)
  | fail
  deriving DecidableEq

/-- `claude_process.ClaudeProcess`, restricted to the attributes the claims
touch.  `init_received` models the `_init_received` attribute: `none` means
the attribute has never been assigned, so reading it raises
`AttributeError` (it is not set anywhere in `ClaudeProcess.__init__`). -/
structure CProc where
  cwd : String
  resume_session_id : Option String := none
  pid : Option Nat := none
  session_id : Option String := none
  running : Bool := false
  init_received : Option Bool := none
  deriving DecidableEq

/-- `ClaudeProcess.__init__(cwd, resume_session_id, allowed_tools, ...)`:
every claim-relevant attribute it assigns; in particular it never assigns
`_init_received`. -/
def mkClaudeProcess (cwd : String) (resume_session_id : Option String) : CProc :=
  { cwd := cwd, resume_session_id := resume_session_id }

/-- `ClaudeProcess.start`.  Returns `False` if the process was already
started or the spawn raised, `True` otherwise.  It does not wait for the
init event, does not touch the event queue, and leaves `session_id`
unchanged — its return value is a boolean, never a session id. -/
def CProc.start (p : CProc) (spawn : SpawnOut) : Bool × CProc :=
  if p.pid.isSome then
    (false, p)
  else
    match spawn with
    | .ok pid => (true, { p with pid := some pid, running := true })
    | .fail => (false, p)

/-! ## Process supervisor (process_manager.py) -/

/-- Lookup in the supervisor's `processes` map. -/
def procGet (l : List (String × CProc)) (k : String) : Option CProc :=
  match l with
  | [] => none
  | (k', v) :: rest => if k' = k then some v else procGet rest k

/-- Insert/replace in the supervisor's `processes` map. -/
def procSet (l : List (String × CProc)) (k : String) (v : CProc) : List (String × CProc) :=
  match l with
  | [] => [(k, v)]
  | (k', v') :: rest =>
      if k' = k then (k, v) :: rest else (k', v') :: procSet rest k v

/-- Remove from the supervisor's `processes` map (`del self.processes[k]`). -/
def procPop (l : List (String × CProc)) (k : String) : List (String × CProc) :=
  match l with
  | [] => []
  | (k', v) :: rest => if k' = k then procPop rest k else (k', v) :: procPop rest k

/-- The `pid` a process contributes to its registry row. -/
def pidVal (p : CProc) : PyVal :=
  match p.pid with
  | some n => .int n
  | none => .nil

/-- `ClaudeProcess.send_message(text)`: false when there is no live child
or the stdin write raised, true otherwise.  `writeOk` models whether the
write+drain succeeded. -/
def send_message (p : CProc) (writeOk : Bool) : Bool :=
  if p.pid.isNone then false else writeOk

/-- `ProcessManager.spawn_process(task_name, cwd, prompt)`.  The value
`ClaudeProcess.start` actually returns (a boolean) is bound to the local
`session_id` and persisted into the registry row as-is, exactly as the
Python does with `task_data["session_id"] = session_id`. -/
def spawn_process (pm : List (String × CProc)) (reg : Registry)
    (task_name cwd : String) (spawn : SpawnOut) :
    Except String (List (String × CProc) × Registry × CProc) :=
  if (procGet pm task_name).isSome then
    .error "ValueError: Process already exists"
  else
    let process := mkClaudeProcess cwd none
    let se := process.start spawn
    let session_id := se.1
    let process := se.2
    let reg' :=
      match get_task reg task_name with
      | some row =>
          let row := dictSet row "session_id" (.bool session_id)
          let row := dictSet row "pid" (pidVal process)
          add_task reg task_name row
      | none => reg
    .ok (procSet pm task_name process, reg', process)

/-- The resurrection tail of `ProcessManager.send_to_process`: consult the
registry, rebuild the process with `--resume`, start it, persist, send. -/
def resurrectAndSend (pm : List (String × CProc)) (reg : Registry)
    (task_name _message : String) (spawn : SpawnOut) (writeOk : Bool) :
    Except String (Bool × List (String × CProc) × Registry) :=
  match get_task reg task_name with
  | none => .error "KeyError: Process not found and no registry entry"
  | some task_data =>
      match dictGet task_data "path" with
      | some (.str path) =>
          if path = "" then .error "KeyError: no cwd available"
          else
            let resume :=
              match dictGet task_data "session_id" with
              | some (.str s) => some s
              | _ => none
            let process := mkClaudeProcess path resume
            match process.start spawn with
            | (false, _) => .ok (false, pm, reg)
            | (true, p) =>
                let task_data := dictSet task_data "pid" (pidVal p)
                let task_data :=
                  match p.session_id with
                  | some s => dictSet task_data "session_id" (.str s)
                  | none => task_data
                .ok (send_message p writeOk, procSet pm task_name p,
                     add_task reg task_name task_data)
      | _ => .error "KeyError: no cwd available"

/-- `ProcessManager.send_to_process(task_name, message)` (no explicit cwd,
as the daemon's router calls it): send directly when the process is live,
otherwise drop the dead entry and attempt resurrection from the registry.
`KeyError` paths are `.error`; a plain `False` return is `.ok (false, ..)`. -/
def send_to_process (pm : List (String × CProc)) (reg : Registry)
    (task_name message : String) (spawn : SpawnOut) (writeOk : Bool) :
    Except String (Bool × List (String × CProc) × Registry) :=
  match procGet pm task_name with
  | some process =>
      if process.running then .ok (send_message process writeOk, pm, reg)
      else resurrectAndSend (procPop pm task_name) reg task_name message spawn writeOk
  | none => resurrectAndSend pm reg task_name message spawn writeOk

/-! ## Daemon orchestrator (daemon_core.py) -/

/-- `Daemon._on_system_init(task_name, event)`.  The handler first reads
`process._init_received` on the task's live process; `ClaudeProcess.__init__`
never assigns that attribute, so when the process is in the map and the
attribute is unset the read raises `AttributeError` (modelled as `.error`)
before `update_task_session_tracking` is reached. -/
def on_system_init (processes : List (String × CProc)) (reg : Registry)
    (task_name sid : String) : Except String (List (String × CProc) × Registry) :=
  match procGet processes task_name with
  | some process =>
      match process.init_received with
      | none => .error "AttributeError: ClaudeProcess has no attribute _init_received"
      | some flag =>
          let processes' :=
            if !flag then procSet processes task_name { process with init_received := some true }
            else processes
          .ok (processes', update_task_session_tracking reg task_name sid)
  | none => .ok (processes, update_task_session_tracking reg task_name sid)

/-- One typed event on an agent process's internal queue, plus the `None`
sentinel the stdout reader enqueues at EOF. -/
inductive OpEv where
  | sysInit (sid : String)
  | assistantMsg
  | userEcho
  | turnResult (success : Bool)
  | eofSentinel
  deriving DecidableEq

/-- Whether `_drain_init_turn`'s loop stops at this event: it breaks on a
`SessionResult` and on the `None` sentinel. -/
def drainStops (e : OpEv) : Bool :=
  match e with
  | .turnResult _ => true
  | .eofSentinel => true
  | _ => false

/-- The initialization turn: the queue's events up to and including the
first result (or EOF sentinel); the whole queue if neither arrives before
the 120 s timeout. -/
def initTurnEvents (q : List OpEv) : List OpEv :=
  match q with
  | [] => []
  | e :: rest => if drainStops e then [e] else e :: initTurnEvents rest

/-- The observable steps of operator startup. -/
inductive OpAction where
  | startProcess
  | sendPrompt
  | drainEvent (e : OpEv)
  | startEventTask
  | registryAdd
  deriving DecidableEq

/-- `Daemon._drain_init_turn(process)`: consume events directly from the
process queue (logging only, never forwarding to the frontend) until the
first result event or the sentinel; an exhausted queue is the 120 s
timeout.  Returns the drain actions and the remaining queue. -/
def drain_init_turn (q : List OpEv) : List OpAction × List OpEv :=
  match q with
  | [] => ([], [])
  | e :: rest =>
      if drainStops e then ([.drainEvent e], rest)
      else
        let ar := drain_init_turn rest
        (.drainEvent e :: ar.1, ar.2)

/-- The fresh-spawn branch of `Daemon._spawn_operator`: start the process
(a failed start raises and is caught by the outer handler), send the seed
prompt, drain the init turn, then start the event monitor and write the
operator's registry row. -/
def spawn_operator_fresh (freshSpawn : SpawnOut) (q : List OpEv) : List OpAction :=
  match (mkClaudeProcess "HOME" none).start freshSpawn with
  | (false, _) => [.startProcess]
  | (true, _) =>
      .startProcess :: .sendPrompt ::
        (drain_init_turn q).1 ++ [.startEventTask, .registryAdd]

/-- `Daemon._spawn_operator`: when the registry holds an operator session
id, attempt a resume — and on a successful start immediately register the
process and start its event monitor, with no drain; otherwise fall through
to the fresh-spawn branch. -/
def spawn_operator (storedSession : Option String) (resumeSpawn freshSpawn : SpawnOut)
    (q : List OpEv) : List OpAction :=
  match storedSession with
  | some sid =>
      match (mkClaudeProcess "HOME" (some sid)).start resumeSpawn with
      | (true, _) => [.startProcess, .startEventTask]
      | (false, _) => .startProcess :: spawn_operator_fresh freshSpawn q
  | none => spawn_operator_fresh freshSpawn q

/-- The event a trace step drained, if it was a drain step. -/
def drainOf (a : OpAction) : Option OpEv :=
  match a with
  | .drainEvent e => some e
  | _ => none

/-- Whether a trace step is not the start of the event monitor. -/
def notMonitorStart (a : OpAction) : Bool :=
  a ≠ OpAction.startEventTask

/-- The drain events a startup trace performs before the event monitor is
started. -/
def drainsBeforeMonitor (tr : List OpAction) : List OpEv :=
  (tr.takeWhile notMonitorStart).filterMap drainOf

/-- The ordering property of claim C5: if the startup trace starts the
event monitor at all, then every event of the initialization turn (up to
and including the first result) was drained before the monitor started. -/
def initTurnDrainedBeforeMonitor (tr : List OpAction) (q : List OpEv) : Bool :=
  !(tr.contains .startEventTask) || (drainsBeforeMonitor tr = initTurnEvents q)

/-- The outcome of one `send_to_process` call as the router observes it:
a boolean return, or a raised `KeyError`. -/
inductive SendOut where
  | sent (b : Bool)
  | keyError
  deriving DecidableEq

/-- `Daemon._route_message_to_claude(task_name, text)`: the sequence of
`send_to_process` invocations (target, text) the router makes, given the
outcome of the worker call.  A non-operator target is tried first; on a
`False` return (the `if success: return` guard fails) and on `KeyError`
alike, the router falls through and sends the same text to the operator. -/
def route_message_to_claude (task_name text : String) (workerOut : SendOut) :
    List (String × String) :=
  if task_name ≠ "operator" then
    match workerOut with
    | .sent true => [(task_name, text)]
    | .sent false => [(task_name, text), ("operator", text)]
    | .keyError => [(task_name, text), ("operator", text)]
  else
    [("operator", text)]

/-- `permission_server.send_permission_notification`: re-fetch the pending
entry, format the prompt and send it with Allow/Deny buttons; when
Telegram returns a result (`sendResp = some msg_id`) register the message
id for callback routing.  The boolean reports whether a chat prompt was
posted. -/
def send_permission_notification (st : PMState) (tool_use_id : String)
    (sendResp : Option Int) : PMState × Bool :=
  match get_pending st tool_use_id with
  | none => (st, false)
  | some _ =>
      match sendResp with
      | some msg_id => (register_telegram_msg st tool_use_id msg_id, true)
      | none => (st, false)

/-- `Daemon._process_permission_request(tool_use_id, session_id)`: resolve
the session to a chat topic (drop if none), drop if the request is already
resolved, drop if a chat message id is already recorded, else post the
prompt. -/
def process_permission_request (reg : Registry) (st : PMState)
    (tool_use_id session_id : String) (sendResp : Option Int) : PMState × Bool :=
  match get_topic_for_session reg session_id with
  | none => (st, false)
  | some _topic =>
      match get_pending st tool_use_id with
      | none => (st, false)
      | some pending =>
          if pending.telegram_msg_id.isSome then (st, false)
          else send_permission_notification st tool_use_id sendResp

/-! ## Worker lifecycle (session_worker.py) -/

/-- The worker-lifecycle world the spawn path mutates: existing worktree
directories, open chat topics, and the registry. -/
structure WWorld where
  worktrees : List String := []
  openTopics : List Int := []
  reg : Registry := []
  deriving DecidableEq

/-- `get_worktree_path(repo_path, task_name)`: `repo/trees/<task>`. -/
def get_worktree_path (repo_path task_name : String) : String :=
  repo_path ++ "/trees/" ++ task_name

/-- `delete_worktree`: removing the directory (the success path of
`git worktree remove --force`). -/
def delete_worktree (w : WWorld) (path : String) : WWorld :=
  { w with worktrees := w.worktrees.filter (fun p => p ≠ path) }

/-- `close_forum_topic`: the topic is no longer open. -/
def close_forum_topic (w : WWorld) (topic_id : Int) : WWorld :=
  { w with openTopics := w.openTopics.filter (fun t => t ≠ topic_id) }

/-- `session_worker.spawn_worktree_task_async(repo_path, task_name,
description)`.  External outcomes: `worktreeOk` for `create_worktree`,
`topicRes` for `_create_task_topic_safely` (`none` = TopicCreationError,
which deletes the worktree and re-raises), and `spawn` for the agent
subprocess.  The rollback branch runs only when `spawn_process` raises;
`.ok (w, pm, none)` is the Python `return None`, `.ok (w, pm, some row)`
is success. -/
def spawn_worktree_task (w : WWorld) (pm : List (String × CProc))
    (repo_path task_name : String) (worktreeOk : Bool) (topicRes : Option Int)
    (spawn : SpawnOut) :
    Except String (WWorld × List (String × CProc) × Option Dict) :=
  if (get_task w.reg task_name).isSome then
    .ok (w, pm, none)
  else
    let wp := get_worktree_path repo_path task_name
    if ¬(wp ∈ w.worktrees ∨ worktreeOk) then
      .ok (w, pm, none)
    else
      let w := { w with worktrees := if wp ∈ w.worktrees then w.worktrees else wp :: w.worktrees }
      match topicRes with
      | none => .error "TopicCreationError"
      | some topic_id =>
          let w := { w with openTopics := topic_id :: w.openTopics }
          let task_data : Dict :=
            [("type", .str "worktree"), ("path", .str wp), ("repo", .str repo_path),
             ("topic_id", .int topic_id), ("status", .str "active")]
          let w := { w with reg := add_task w.reg task_name task_data }
          match spawn_process pm w.reg task_name wp spawn with
          | .error _ =>
              let w := close_forum_topic w topic_id
              let w := delete_worktree w wp
              let w := { w with reg := remove_task w.reg task_name }
              .ok (w, pm, none)
          | .ok (pm', reg', process) =>
              let w := { w with reg := reg' }
              let task_data := dictSet task_data "session_id"
                (match process.session_id with | some s => .str s | none => .nil)
              let task_data := dictSet task_data "pid" (pidVal process)
              let w := { w with reg := add_task w.reg task_name task_data }
              .ok (w, pm', some task_data)

/-! ## Helper lemmas -/

/-- The empty broker state. -/
def pmEmpty : PMState := {}

theorem pendingGet_pendingSet (l : List (String × PendingPermission)) (k : String)
    (v : PendingPermission) : pendingGet (pendingSet l k v) k = some v := by
  induction l with
  | nil => simp [pendingSet, pendingGet]
  | cons hd tl ih =>
      by_cases h : hd.1 = k
      · simp [pendingSet, h, pendingGet]
      · simp [pendingSet, h, pendingGet, ih]

theorem pendingGet_pendingPop (l : List (String × PendingPermission)) (k : String) :
    pendingGet (pendingPop l k) k = none := by
  induction l with
  | nil => simp [pendingPop, pendingGet]
  | cons hd tl ih =>
      by_cases h : hd.1 = k
      · simp [pendingPop, h, ih]
      · simp [pendingPop, h, pendingGet, ih]

/-! ## Claim theorems -/

/-- Claim C3: for a tool outside the auto-allow set, `request_permission`
returns the outcome of the bounded 300 s wait — the decision a respond
call supplied, or `(deny, "Permission request timed out")` when none
arrived — and in both cases the pending entry for the tool_use_id and
every reverse chat-message-id mapping to it are removed (under the lock)
before returning. -/
theorem C3_request_permission_result_and_cleanup
    (st : PMState) (tool_name tool_use_id session_id cwd : String)
    (waited : Option (Decision × String)) (h : tool_name ∉ autoAllow) :
    (request_permission st tool_name tool_use_id session_id cwd waited).1
        = waited.getD (Decision.deny, "Permission request timed out")
    ∧ pendingGet (request_permission st tool_name tool_use_id session_id cwd waited).2.pending
        tool_use_id = none
    ∧ ∀ mt ∈ (request_permission st tool_name tool_use_id session_id cwd waited).2.msg_to_tool,
        mt.2 ≠ tool_use_id := by
  unfold request_permission
  rw [if_neg h]
  refine ⟨?_, ?_, ?_⟩
  · cases waited <;> rfl
  · exact pendingGet_pendingPop _ _
  · intro mt hmt
    simp only [request_cleanup] at hmt
    exact of_decide_eq_true (List.mem_filter.mp hmt).2

/-- Witness for C3: a concrete `Bash` request that times out. -/
theorem C3_request_permission_result_and_cleanup_witness :
    ("Bash" ∉ autoAllow)
    ∧ (request_permission pmEmpty "Bash" "T1" "S1" "/tmp" none).1
        = (Decision.deny, "Permission request timed out")
    ∧ pendingGet (request_permission pmEmpty "Bash" "T1" "S1" "/tmp" none).2.pending "T1" = none
    ∧ ∀ mt ∈ (request_permission pmEmpty "Bash" "T1" "S1" "/tmp" none).2.msg_to_tool,
        mt.2 ≠ "T1" := by
  have h := C3_request_permission_result_and_cleanup pmEmpty "Bash" "T1" "S1" "/tmp" none
    (by decide)
  exact ⟨by decide, h.1, h.2.1, h.2.2⟩

/-- Counterexample to claim C4: `respond` is not one-shot.  With a pending
`Bash` request inserted and the waiter not yet woken (no cleanup has run),
a first `respond` returns true and a second `respond` on the same
tool_use_id also returns true — the entry is only removed by the waiter's
cleanup, never by `respond` itself. -/
theorem C4_respond_second_call_also_true :
    (respond (request_insert pmEmpty "Bash" "T1" "S1" "/tmp") "T1" .allow "user decision").1
      = true
    ∧ (respond
        (respond (request_insert pmEmpty "Bash" "T1" "S1" "/tmp") "T1" .allow "user decision").2
        "T1" .deny "user decision").1 = true := by
  constructor
  · rfl
  · rfl

/-- Claim C4 (amended): `respond` returns true exactly when the pending
entry is present at the moment of the call; it does not remove the entry,
so any number of responds that arrive before the waiter's cleanup each
return true, and after the waiter's cleanup has removed the entry every
respond on that id returns false. -/
theorem C4_respond_true_iff_pending (st : PMState) (tool_use_id : String)
    (d d' : Decision) (r r' : String) :
    ((respond st tool_use_id d r).1 = (pendingGet st.pending tool_use_id).isSome)
    ∧ ((pendingGet (respond st tool_use_id d r).2.pending tool_use_id).isSome
        = (pendingGet st.pending tool_use_id).isSome)
    ∧ ((respond (request_cleanup st tool_use_id) tool_use_id d' r').1 = false) := by
  refine ⟨?_, ?_, ?_⟩
  · unfold respond
    cases h : pendingGet st.pending tool_use_id <;> simp [h]
  · unfold respond
    cases h : pendingGet st.pending tool_use_id with
    | none => simp [h]
    | some p => simp [h, pendingGet_pendingSet]
  · unfold respond
    simp [request_cleanup, pendingGet_pendingPop]

/-- Counterexample to claim C6: the auto-allow fast path does not return
the reason string `"auto"`; for the auto-allowed tool `Read` it returns
`"Auto-allowed: Read"`. -/
theorem C6_auto_allow_reason_not_auto :
    (request_permission pmEmpty "Read" "T1" "S1" "/tmp" none).1
      = (Decision.allow, "Auto-allowed: Read")
    ∧ ("Auto-allowed: Read" : String) ≠ "auto" := by
  constructor
  · rfl
  · decide

/-- Claim C6 (amended): for every tool in the auto-allow set,
`request_permission` returns `(allow, "Auto-allowed: <tool>")` immediately
with the broker state untouched — no PendingPermission is inserted,
nothing is pushed onto the notification queue, and hence no chat prompt
can be produced for it. -/
theorem C6_auto_allow_immediate (st : PMState)
    (tool_name tool_use_id session_id cwd : String)
    (waited : Option (Decision × String)) (h : tool_name ∈ autoAllow) :
    request_permission st tool_name tool_use_id session_id cwd waited
      = ((Decision.allow, "Auto-allowed: " ++ tool_name), st) := by
  unfold request_permission
  rw [if_pos h]

/-- Witness for the amended C6 at the concrete tool `Read`. -/
theorem C6_auto_allow_immediate_witness :
    ("Read" ∈ autoAllow)
    ∧ request_permission pmEmpty "Read" "T9" "S9" "/tmp" none
        = ((Decision.allow, "Auto-allowed: Read"), pmEmpty) := by
  exact ⟨by decide, C6_auto_allow_immediate pmEmpty "Read" "T9" "S9" "/tmp" none (by decide)⟩

/-- Claim C8: at most one chat prompt per pending permission.  When the
notification loop first processes a tool_use_id whose pending record has
no recorded chat message id and the prompt send returns message id `m`,
the id is registered; a second pass over the same tool_use_id — with any
send outcome — observes the non-null recorded chat message id and returns
without posting another prompt. -/
theorem C8_prompt_at_most_once
    (reg : Registry) (st : PMState) (tool_use_id session_id : String)
    (m t : Int) (p : PendingPermission) (resp2 : Option Int)
    (hp : get_pending st tool_use_id = some p)
    (hm : p.telegram_msg_id = none)
    (ht : get_topic_for_session reg session_id = some t) :
    process_permission_request reg st tool_use_id session_id (some m)
      = (register_telegram_msg st tool_use_id m, true)
    ∧ process_permission_request reg (register_telegram_msg st tool_use_id m)
        tool_use_id session_id resp2
      = (register_telegram_msg st tool_use_id m, false) := by
  have hp' : pendingGet st.pending tool_use_id = some p := hp
  have hreg : register_telegram_msg st tool_use_id m
      = { st with
          pending := pendingSet st.pending tool_use_id { p with telegram_msg_id := some m },
          msg_to_tool := msgMapSet st.msg_to_tool m tool_use_id } := by
    unfold register_telegram_msg
    rw [hp']
  constructor
  · unfold process_permission_request send_permission_notification
    rw [ht]
    unfold get_pending
    rw [hp']
    simp [hm]
  · unfold process_permission_request
    rw [ht]
    have hget : get_pending (register_telegram_msg st tool_use_id m) tool_use_id
        = some { p with telegram_msg_id := some m } := by
      rw [hreg]
      exact pendingGet_pendingSet _ _ _
    rw [hget]
    simp

/-- Witness for C8: a concrete pending `Bash` request whose session
resolves to topic 7; the first pass posts message 44, the second pass
drops. -/
theorem C8_prompt_at_most_once_witness :
    get_pending
        { pmEmpty with
          pending := [("T1",
            { tool_name := "Bash", tool_use_id := "T1", session_id := "S1", cwd := "/" })] }
        "T1"
      = some { tool_name := "Bash", tool_use_id := "T1", session_id := "S1", cwd := "/" }
    ∧ process_permission_request
        [("t", [("session_id", PyVal.str "S1"), ("topic_id", PyVal.int 7)])]
        { pmEmpty with
          pending := [("T1",
            { tool_name := "Bash", tool_use_id := "T1", session_id := "S1", cwd := "/" })] }
        "T1" "S1" (some 44)
      = (register_telegram_msg
          { pmEmpty with
            pending := [("T1",
              { tool_name := "Bash", tool_use_id := "T1", session_id := "S1", cwd := "/" })] }
          "T1" 44, true)
    ∧ process_permission_request
        [("t", [("session_id", PyVal.str "S1"), ("topic_id", PyVal.int 7)])]
        (register_telegram_msg
          { pmEmpty with
            pending := [("T1",
              { tool_name := "Bash", tool_use_id := "T1", session_id := "S1", cwd := "/" })] }
          "T1" 44)
        "T1" "S1" (some 45)
      = (register_telegram_msg
          { pmEmpty with
            pending := [("T1",
              { tool_name := "Bash", tool_use_id := "T1", session_id := "S1", cwd := "/" })] }
          "T1" 44, false) := by
  have h := C8_prompt_at_most_once
    [("t", [("session_id", PyVal.str "S1"), ("topic_id", PyVal.int 7)])]
    { pmEmpty with
      pending := [("T1",
        { tool_name := "Bash", tool_use_id := "T1", session_id := "S1", cwd := "/" })] }
    "T1" "S1" 44 7
    { tool_name := "Bash", tool_use_id := "T1", session_id := "S1", cwd := "/" }
    (some 45) rfl rfl (by decide)
  exact ⟨rfl, h.1, h.2⟩

/-- Claim C7: in a managed session the hook always exits 0 and emits
exactly one decision object; a connection error to the permission server
yields allow (fail-open, with the logged reason), an HTTP timeout yields
deny with the timed-out reason, and a missing or empty required stdin
field (tool_name, tool_use_id, session_id) yields deny. -/
theorem C7_hook_decision_policy
    (inp : HookIn) (stdin : Option HookIn) (http : HookHttpOut)
    (hreq : requiredFieldsTruthy inp = true) :
    ((hook_main true stdin http).exit_code = 0)
    ∧ ((hook_main true stdin http).isDecided = true)
    ∧ ((hook_main true (some inp) .connectionError).out
        = .decided .allow "Permission server not running")
    ∧ ((hook_main true (some inp) .timeout).out
        = .decided .deny "Permission request timed out")
    ∧ (∀ inp2 : HookIn, requiredFieldsTruthy inp2 = false →
        (hook_main true (some inp2) http).out = .decided .deny "Missing required fields") := by
  refine ⟨?_, ?_, ?_, ?_, ?_⟩
  · unfold hook_main
    cases stdin with
    | none => rfl
    | some i =>
        by_cases hq : requiredFieldsTruthy i
        · cases h : hook_request_permission http with
          | ok dr => cases dr with | mk d r => simp [hq, h]
          | error e => simp [hq, h]
        · simp [hq]
  · unfold hook_main
    cases stdin with
    | none => rfl
    | some i =>
        by_cases hq : requiredFieldsTruthy i
        · cases h : hook_request_permission http with
          | ok dr => cases dr with | mk d r => simp [hq, h, HookRun.isDecided]
          | error e => simp [hq, h, HookRun.isDecided]
        · simp [hq, HookRun.isDecided]
  · unfold hook_main
    simp [hreq, hook_request_permission]
  · unfold hook_main
    simp [hreq, hook_request_permission]
  · intro inp2 h2
    unfold hook_main
    simp [h2]

/-- Witness for C7 at a concrete hook input with all required fields. -/
theorem C7_hook_decision_policy_witness :
    requiredFieldsTruthy
        { tool_name := some "Bash", tool_use_id := some "T1", session_id := some "S1" } = true
    ∧ ((hook_main true
          (some { tool_name := some "Bash", tool_use_id := some "T1",
                  session_id := some "S1" })
          .connectionError).exit_code = 0)
    ∧ ((hook_main true
          (some { tool_name := some "Bash", tool_use_id := some "T1",
                  session_id := some "S1" })
          .connectionError).out = .decided .allow "Permission server not running")
    ∧ ((hook_main true
          (some { tool_name := some "Bash", tool_use_id := some "T1",
                  session_id := some "S1" })
          .timeout).out = .decided .deny "Permission request timed out")
    ∧ ((hook_main true
          (some { tool_name := some "Bash", tool_use_id := none,
                  session_id := some "S1" })
          .timeout).out = .decided .deny "Missing required fields") := by
  have h := C7_hook_decision_policy
    { tool_name := some "Bash", tool_use_id := some "T1", session_id := some "S1" }
    (some { tool_name := some "Bash", tool_use_id := some "T1", session_id := some "S1" })
    HookHttpOut.connectionError (by decide)
  refine ⟨by decide, h.1, h.2.2.1, ?_, ?_⟩
  · have h2 := C7_hook_decision_policy
      { tool_name := some "Bash", tool_use_id := some "T1", session_id := some "S1" }
      (some { tool_name := some "Bash", tool_use_id := some "T1", session_id := some "S1" })
      HookHttpOut.timeout (by decide)
    exact h2.2.2.2.1
  · exact h.2.2.2.2
      { tool_name := some "Bash", tool_use_id := none, session_id := some "S1" } (by decide)

/-- The concrete registry used for the C1 evaluation: one task row. -/
def regT : Registry :=
  [("t", [("type", PyVal.str "worktree"), ("path", PyVal.str "/repo/trees/t")])]

/-- The process object after a successful spawn with pid 42. -/
def procT42 : CProc :=
  { cwd := "/repo/trees/t", pid := some 42, running := true }

/-- The registry row `spawn_process` leaves behind for that spawn. -/
def rowT42 : Dict :=
  [("type", PyVal.str "worktree"), ("path", PyVal.str "/repo/trees/t"),
   ("session_id", PyVal.bool true), ("pid", PyVal.int 42)]

/-- Claim C1 evaluated on the code: `ClaudeProcess.start` returns the
boolean `true` (it never waits for the init event and never returns a
session id), and `ProcessManager.spawn_process` persists that boolean into
the registry row's `session_id` slot — which therefore cannot equal any
session-id string such as the `"S1"` of the first init event. -/
theorem C1_spawn_persists_start_boolean :
    ((mkClaudeProcess "/repo/trees/t" none).start (.ok 42)).1 = true
    ∧ spawn_process [] regT "t" "/repo/trees/t" (.ok 42)
        = .ok ([("t", procT42)], [("t", rowT42)], procT42)
    ∧ dictGet rowT42 "session_id" = some (PyVal.bool true)
    ∧ ∀ s : String, dictGet rowT42 "session_id" ≠ some (PyVal.str s) := by
  refine ⟨rfl, rfl, rfl, ?_⟩
  intro s
  rw [show dictGet rowT42 "session_id" = some (PyVal.bool true) from rfl]
  simp

/-- The concrete registry used for the C2 evaluation: the operator row
with a stale stored session id. -/
def regOperator : Registry :=
  [("operator", [("type", PyVal.str "operator"), ("session_id", PyVal.str "OLD")])]

/-- Claim C2 evaluated on the code: when the init event's task has its
process in the manager's map (the normal case for every event delivered by
a monitor task), `_on_system_init` reads `process._init_received`, which
`ClaudeProcess.__init__` never assigns, so the handler raises
`AttributeError` before `update_task_session_tracking` is reached and the
registry keeps the old session id; only when no process is in the map
(as in the unit tests) does the update run. -/
theorem C2_init_handler_raises_before_update :
    on_system_init [("operator", mkClaudeProcess "HOME" none)] regOperator "operator" "S1"
      = .error "AttributeError: ClaudeProcess has no attribute _init_received"
    ∧ (mkClaudeProcess "HOME" none).init_received = none
    ∧ on_system_init [] regOperator "operator" "S1"
      = .ok ([], [("operator", [("type", PyVal.str "operator"), ("session_id", PyVal.str "S1")])]) := by
  exact ⟨rfl, rfl, rfl⟩

/-- Each drain action carries exactly the initialization-turn events. -/
theorem drain_init_turn_eq_map (q : List OpEv) :
    (drain_init_turn q).1 = (initTurnEvents q).map OpAction.drainEvent := by
  induction q with
  | nil => rfl
  | cons e rest ih =>
      by_cases h : drainStops e
      · simp [drain_init_turn, initTurnEvents, h]
      · simp [drain_init_turn, initTurnEvents, h, ih]

/-- `takeWhile` over the fresh-spawn trace stops exactly at the monitor
start. -/
theorem takeWhile_fresh_trace (l : List OpEv) (rest : List OpAction) :
    List.takeWhile notMonitorStart
        (OpAction.startProcess :: OpAction.sendPrompt ::
          (l.map OpAction.drainEvent ++ OpAction.startEventTask :: rest))
      = OpAction.startProcess :: OpAction.sendPrompt :: l.map OpAction.drainEvent := by
  induction l with
  | nil => simp [List.takeWhile_cons, notMonitorStart]
  | cons e l' ih =>
      simp only [List.map_cons, List.cons_append] at ih ⊢
      simp [List.takeWhile_cons, notMonitorStart] at ih ⊢
      try exact ih

/-- Extracting drained events back out of drain actions. -/
theorem filterMap_drainOf (l : List OpEv) :
    List.filterMap drainOf (l.map OpAction.drainEvent) = l := by
  induction l with
  | nil => rfl
  | cons e l' ih =>
      rw [show List.filterMap drainOf ((e :: l').map OpAction.drainEvent)
          = e :: List.filterMap drainOf (l'.map OpAction.drainEvent) from rfl, ih]

/-- The fresh-spawn branch drains the whole initialization turn before
starting the event monitor. -/
theorem fresh_spawn_drained (fresh : SpawnOut) (q : List OpEv) :
    initTurnDrainedBeforeMonitor (spawn_operator_fresh fresh q) q = true := by
  cases fresh with
  | fail => rfl
  | ok pid =>
      have htr : spawn_operator_fresh (.ok pid) q
          = OpAction.startProcess :: OpAction.sendPrompt ::
              ((initTurnEvents q).map OpAction.drainEvent ++
                OpAction.startEventTask :: [OpAction.registryAdd]) := by
        unfold spawn_operator_fresh
        rw [show (mkClaudeProcess "HOME" none).start (.ok pid)
            = (true, { cwd := "HOME", pid := some pid, running := true }) from rfl]
        rw [drain_init_turn_eq_map]
        rfl
      have hdr : drainsBeforeMonitor (spawn_operator_fresh (.ok pid) q) = initTurnEvents q := by
        rw [htr]
        unfold drainsBeforeMonitor
        rw [takeWhile_fresh_trace]
        rw [show List.filterMap drainOf
            (OpAction.startProcess :: OpAction.sendPrompt ::
              (initTurnEvents q).map OpAction.drainEvent)
            = List.filterMap drainOf ((initTurnEvents q).map OpAction.drainEvent) from rfl]
        exact filterMap_drainOf _
      unfold initTurnDrainedBeforeMonitor
      rw [hdr]
      simp

/-- Prepending the (failed) resume attempt's start step changes neither
whether the monitor starts nor what is drained before it. -/
theorem drained_cons_startProcess (tr : List OpAction) (q : List OpEv) :
    initTurnDrainedBeforeMonitor (OpAction.startProcess :: tr) q
      = initTurnDrainedBeforeMonitor tr q := by
  unfold initTurnDrainedBeforeMonitor drainsBeforeMonitor
  rw [show (OpAction.startProcess :: tr).contains OpAction.startEventTask
      = tr.contains OpAction.startEventTask from rfl]
  rw [show List.takeWhile notMonitorStart (OpAction.startProcess :: tr)
      = OpAction.startProcess :: List.takeWhile notMonitorStart tr from rfl]
  rw [show List.filterMap drainOf (OpAction.startProcess :: List.takeWhile notMonitorStart tr)
      = List.filterMap drainOf (List.takeWhile notMonitorStart tr) from rfl]

/-- Counterexample to claim C5: when the operator is resumed from a stored
session id and the resume start succeeds, `_spawn_operator` registers the
process and starts its event monitor immediately — no event of the
initialization turn is drained before the monitor starts. -/
theorem C5_resume_path_starts_monitor_without_drain :
    spawn_operator (some "S1") (.ok 7) (.ok 7)
        [OpEv.sysInit "S1", OpEv.assistantMsg, OpEv.turnResult true]
      = [OpAction.startProcess, OpAction.startEventTask]
    ∧ initTurnDrainedBeforeMonitor
        (spawn_operator (some "S1") (.ok 7) (.ok 7)
          [OpEv.sysInit "S1", OpEv.assistantMsg, OpEv.turnResult true])
        [OpEv.sysInit "S1", OpEv.assistantMsg, OpEv.turnResult true] = false := by
  exact ⟨rfl, rfl⟩

/-- Claim C5 (amended): the drain-before-monitor ordering holds on the
fresh-spawn path — whether reached directly (no stored session id) or as
the fallback after a failed resume start — but on a successful resume the
event monitor is started immediately with no drain at all. -/
theorem C5_drain_before_monitor_fresh_only
    (sid : String) (pid : Nat) (resume fresh : SpawnOut) (q : List OpEv) :
    initTurnDrainedBeforeMonitor (spawn_operator none resume fresh q) q = true
    ∧ initTurnDrainedBeforeMonitor (spawn_operator (some sid) .fail fresh q) q = true
    ∧ spawn_operator (some sid) (.ok pid) fresh q
        = [OpAction.startProcess, OpAction.startEventTask] := by
  refine ⟨?_, ?_, rfl⟩
  · exact fresh_spawn_drained fresh q
  · rw [show spawn_operator (some sid) .fail fresh q
        = OpAction.startProcess :: spawn_operator_fresh fresh q from rfl]
    rw [drained_cons_startProcess]
    exact fresh_spawn_drained fresh q

/-- The registry row left behind by the C9 run: the task survives with a
null session id and pid. -/
def rowTFinal : Dict :=
  [("type", PyVal.str "worktree"), ("path", PyVal.str "/repo/trees/T"),
   ("repo", PyVal.str "/repo"), ("topic_id", PyVal.int 5),
   ("status", PyVal.str "active"), ("session_id", PyVal.nil), ("pid", PyVal.nil)]

/-- The worker process object after its spawn failed: no pid, not running. -/
def procTFail : CProc := { cwd := "/repo/trees/T" }

/-- The world at the end of the C9 run: worktree present, topic open,
registry row present. -/
def wTFinal : WWorld :=
  { worktrees := ["/repo/trees/T"], openTopics := [5], reg := [("T", rowTFinal)] }

/-- Claim C9 evaluated on the code: when the agent subprocess fails to
launch after the chat topic and worktree exist, `ClaudeProcess.start`
swallows the failure (returns False) and `spawn_process` returns normally,
so `spawn_worktree_task_async`'s rollback branch never runs — the call
reports success and the topic stays open, the worktree directory remains,
and the registry keeps the task row.  The rollback branch itself does work
when `spawn_process` raises (here: a duplicate task in the process map),
which shows the divergence is in the unreported start failure, not in the
rollback code. -/
theorem C9_no_rollback_on_start_failure :
    spawn_worktree_task {} [] "/repo" "T" true (some 5) .fail
      = .ok (wTFinal, [("T", procTFail)], some rowTFinal)
    ∧ wTFinal.worktrees = ["/repo/trees/T"]
    ∧ wTFinal.openTopics = [5]
    ∧ get_task wTFinal.reg "T" = some rowTFinal
    ∧ spawn_worktree_task {} [("T", procTFail)] "/repo" "T" true (some 5) (.ok 9)
        = .ok ({}, [("T", procTFail)], none) := by
  exact ⟨rfl, rfl, rfl, rfl, rfl⟩

/-- A dead worker process entry (crashed child, pid recorded). -/
def procDead : CProc := { cwd := "/w", pid := some 3, running := false }

/-- A registry row allowing resurrection of the worker. -/
def regW : Registry := [("w", [("path", PyVal.str "/w"), ("session_id", PyVal.str "S9")])]

/-- Claim C10: for a non-command text addressed to a non-operator task,
when `send_to_process` completes without raising but returns False, the
router falls through and sends the same text to the operator as well — the
fall-back is not limited to the unknown-task KeyError case.  The last
conjunct exhibits such a non-raising False return: a dead worker whose
resurrection start fails. -/
theorem C10_router_falls_back_on_false_return
    (task text : String) (h : task ≠ "operator") :
    route_message_to_claude task text (.sent false) = [(task, text), ("operator", text)]
    ∧ route_message_to_claude task text .keyError = [(task, text), ("operator", text)]
    ∧ send_to_process [("w", procDead)] regW "w" text .fail true = .ok (false, [], regW) := by
  refine ⟨?_, ?_, rfl⟩
  · unfold route_message_to_claude
    rw [if_pos h]
  · unfold route_message_to_claude
    rw [if_pos h]

/-- Witness for C10 at a concrete task name and text. -/
theorem C10_router_falls_back_on_false_return_witness :
    route_message_to_claude "mytask" "hello" (.sent false)
      = [("mytask", "hello"), ("operator", "hello")]
    ∧ send_to_process [("w", procDead)] regW "w" "hello" .fail true = .ok (false, [], regW) := by
  have h := C10_router_falls_back_on_false_return "mytask" "hello" (by decide)
  exact ⟨h.1, h.2.2⟩
